import Mathlib

/-!
Shallow embedding of the authenticated request pipeline of the Oway SDK
(TypeScript `HttpClient` in src/unnamed/part_002, Go `Client`/`Error` in
src/packages/go/oway.go and src/packages/go/errors.go), together with
theorems settling the behavioural claims about the token manager, the
request executor, the error classifier, the header composition and the
logging sanitizer.
-/

namespace Oway

/-! ## JavaScript truthiness helpers

The TypeScript SDK relies on JS truthiness (`a || b`, `if (x)`), under which
the empty string and the number zero are falsy.  These helpers mirror that. -/

/-- JS `a || b` on optional strings: an absent or empty string falls through. -/
def jsOr (a b : Option String) : Option String :=
  match a with
  | some s => if s = "" then b else some s
  | none => b

/-- JS `a || b` where the fallback is a plain string. -/
def jsOrStr (a : Option String) (b : String) : String :=
  match a with
  | some s => if s = "" then b else s
  | none => b

/-- JS truthiness filter on an optional string (empty string is falsy). -/
def jsTruthyStr (a : Option String) : Option String :=
  match a with
  | some s => if s = "" then none else some s
  | none => none

/-- JS truthiness filter on an optional integer (zero is falsy). -/
def jsTruthyInt (a : Option Int) : Option Int :=
  match a with
  | some n => if n = 0 then none else some n
  | none => none

/-! ## Error records and the error classifier

`OwayError` embeds the TypeScript class of the same name
(src/unnamed/part_002 lines 73-114); `statusCode` is optional there, and the
guard `if (!this.statusCode) return false` also treats a zero status as
absent, which the embedding keeps. -/

structure OwayError where
  message : String
  code : Option String
  statusCode : Option Nat
  requestId : Option String
deriving Repr, DecidableEq

/-- Embedding of `OwayError.isRetryable` (src/unnamed/part_002 lines 87-113). -/
def OwayError.isRetryable (e : OwayError) : Bool :=
  match e.statusCode with
  | none => false
  | some sc =>
    if sc = 0 then false
    else if sc = 429 then true
    else if sc = 503 then true
    else if sc = 500 then true
    else if sc = 501 then false
    else if sc = 502 then true
    else if sc = 504 then true
    else if 500 ≤ sc then true
    else false

end Oway

namespace GoSdk

/-- Embedding of the Go `Error` struct (src/packages/go/errors.go lines 9-21);
`StatusCode` is a plain `int`, absent statuses are represented by zero. -/
structure Error where
  Message : String
  Code : String
  StatusCode : Nat
  RequestID : String
deriving Repr, DecidableEq

/-- Embedding of `Error.IsRetryable` (src/packages/go/errors.go lines 32-54). -/
def Error.IsRetryable (e : Error) : Bool :=
  if e.StatusCode = 429 then true
  else if e.StatusCode = 500 then true
  else if e.StatusCode = 501 then false
  else if e.StatusCode = 502 then true
  else if e.StatusCode = 503 then true
  else if e.StatusCode = 504 then true
  else if 500 ≤ e.StatusCode then true
  else false

end GoSdk

namespace Oway

/-! ## Header composition

JS object literals are embedded as ordered association lists: writing to an
existing key overwrites its value in place, writing a fresh key appends it,
and lookup returns the first (unique) binding. -/

/-- JS object property write: overwrite in place, or append a fresh key. -/
def setHeader : List (String × String) → String → String → List (String × String)
  | [], k, v => [(k, v)]
  | (k0, v0) :: rest, k, v =>
    if k0 = k then (k0, v) :: rest else (k0, v0) :: setHeader rest k v

/-- JS object property read. -/
def getHeader : List (String × String) → String → Option String
  | [], _ => none
  | (k0, v0) :: rest, k => if k0 = k then some v0 else getHeader rest k

/-- JS object spread `{...acc, ...hs}`: write each binding of `hs` in order. -/
def mergeHeaders (acc : List (String × String)) (hs : List (String × String)) :
    List (String × String) :=
  hs.foldl (fun a kv => setHeader a kv.1 kv.2) acc

/-- Embedding of the API-key precedence `options.companyApiKey ||
this.config.companyApiKey || this.config.apiKey` (src/unnamed/part_002
line 319), with JS falsiness of the empty string. -/
def resolveApiKey (perRequest cfgCompanyApiKey cfgApiKey : Option String) :
    Option String :=
  jsOr perRequest (jsOr cfgCompanyApiKey cfgApiKey)

/-- Embedding of the header construction of `HttpClient.request`
(src/unnamed/part_002 lines 321-331): the literal lists content-type, the
bearer authorization and the request id, then spreads the caller-supplied
headers over it, and only afterwards the guarded assignment
`if (apiKey) headers['x-oway-api-key'] = apiKey` runs. -/
def composeHeaders (tok requestId : String) (callerHeaders : List (String × String))
    (apiKey : Option String) : List (String × String) :=
  let base := [("Content-Type", "application/json"),
               ("Authorization", "Bearer " ++ tok),
               ("x-request-id", requestId)]
  let merged := mergeHeaders base callerHeaders
  match apiKey with
  | some k => if k = "" then merged else setHeader merged "x-oway-api-key" k
  | none => merged

/-! ## The request executor

`HttpClient.request` (src/unnamed/part_002 lines 296-438) resolves the token
once, composes the headers once, and then runs a `for` loop over
`attempt = 0 .. maxRetries`.  Each loop iteration performs the HTTP exchange;
its observable outcome per attempt is either a response with a status (and
possibly an error body) or a thrown non-`OwayError` exception
(network/timeout/abort).  The embedding keeps a trace of the attempts, the
headers each attempt sent, and the backoff delays inserted. -/

/-- Observable outcome of one HTTP attempt as seen by the `try` block. -/
inductive Outcome where
  | response (status : Nat) (errMessage errCode serverReqId : Option String)
  | exn (msg : String)
deriving Repr, DecidableEq

/-- An error thrown inside the attempt loop: either a typed `OwayError` or a
raw (non-`OwayError`) exception. -/
inductive Thrown where
  | oway (e : OwayError)
  | raw (msg : String)
deriving Repr, DecidableEq

/-- Decision taken by the `catch` clause for one failed attempt. -/
inductive CatchAction where
  | raiseNow
  | breakLoop
  | delayRetry (delayMs : Nat)
deriving Repr, DecidableEq

/-- Embedding of the `catch` clause of `HttpClient.request`
(src/unnamed/part_002 lines 398-429): a typed non-retryable error is
rethrown immediately; otherwise, on the final attempt the loop breaks (and
the last error is rethrown after the loop); otherwise the executor sleeps
`2 ^ attempt * 1000` milliseconds and retries. -/
def catchAction (maxRetries attempt : Nat) (t : Thrown) : CatchAction :=
  match t with
  | .oway e =>
    if e.isRetryable = false then .raiseNow
    else if attempt = maxRetries then .breakLoop
    else .delayRetry (2 ^ attempt * 1000)
  | .raw _ =>
    if attempt = maxRetries then .breakLoop
    else .delayRetry (2 ^ attempt * 1000)

/-- Embedding of the error built from a non-ok response
(src/unnamed/part_002 lines 356-371): message and code fall back over the
parsed body, the status is attached, and the request id prefers the
server-echoed `x-request-id`. -/
def responseError (status : Nat) (errMessage errCode serverReqId : Option String)
    (requestId : String) : OwayError :=
  { message := jsOrStr errMessage ("Request failed with status " ++ toString status)
    code := some (jsOrStr errCode "API_ERROR")
    statusCode := some status
    requestId := some (jsOrStr serverReqId requestId) }

/-- Result of the `try` block of one attempt. -/
inductive AttemptResult where
  | ok (status : Nat)
  | thrown (t : Thrown)
deriving Repr, DecidableEq

/-- One iteration of the `try` block (src/unnamed/part_002 lines 342-397):
`response.ok` means a status in 200..299, any other status is turned into a
thrown `OwayError`, and a raw exception propagates as such. -/
def runAttempt (o : Outcome) (requestId : String) : AttemptResult :=
  match o with
  | .response status m c srid =>
    if 200 ≤ status ∧ status ≤ 299 then .ok status
    else .thrown (.oway (responseError status m c srid requestId))
  | .exn msg => .thrown (.raw msg)

/-- Final result of the attempt loop: a successful status, or the last
thrown error. -/
inductive ReqOutcome where
  | ok (status : Nat)
  | err (t : Thrown)
deriving Repr, DecidableEq

/-- Trace of one execution of the attempt loop. -/
structure ExecTrace where
  attemptsMade : Nat
  headersPerAttempt : List (List (String × String))
  delaysMs : List Nat
  result : ReqOutcome
deriving Repr, DecidableEq

/-- Embedding of the `for` loop of `HttpClient.request`
(src/unnamed/part_002 lines 341-437), driven by a fuel argument equal to the
number of loop iterations still allowed (`maxRetries + 1 - attempt`).  The
headers are a loop-invariant argument because the source composes them once,
before the loop; the trace records the headers every attempt actually sent. -/
def requestLoop (maxRetries : Nat) (outcomes : Nat → Outcome)
    (headers : List (String × String)) (requestId : String) :
    Nat → Nat → ExecTrace
  | _, 0 =>
    { attemptsMade := 0, headersPerAttempt := [], delaysMs := [],
      result := .err (.raw "unreachable") }
  | attempt, fuel + 1 =>
    match runAttempt (outcomes attempt) requestId with
    | .ok status =>
      { attemptsMade := 1, headersPerAttempt := [headers], delaysMs := [],
        result := .ok status }
    | .thrown t =>
      match catchAction maxRetries attempt t with
      | .raiseNow =>
        { attemptsMade := 1, headersPerAttempt := [headers], delaysMs := [],
          result := .err t }
      | .breakLoop =>
        { attemptsMade := 1, headersPerAttempt := [headers], delaysMs := [],
          result := .err t }
      | .delayRetry d =>
        let r := requestLoop maxRetries outcomes headers requestId (attempt + 1) fuel
        { attemptsMade := r.attemptsMade + 1,
          headersPerAttempt := headers :: r.headersPerAttempt,
          delaysMs := d :: r.delaysMs,
          result := r.result }

/-- Inputs of one call to `HttpClient.request`: the environment supplies the
value each successive `getAccessToken()` call would resolve to, and the
outcome of each attempted HTTP exchange. -/
structure RequestModel where
  maxRetries : Nat
  tokens : Nat → String
  outcomes : Nat → Outcome
  requestIdOpt : Option String
  generatedRequestId : String
  callerHeaders : List (String × String)
  perRequestApiKey : Option String
  cfgCompanyApiKey : Option String
  cfgApiKey : Option String

/-- Trace of one call to `HttpClient.request`, including how many times the
token accessor was invoked. -/
structure RequestResult where
  tokenResolutions : Nat
  trace : ExecTrace
deriving Repr, DecidableEq

/-- Embedding of `HttpClient.request` (src/unnamed/part_002 lines 296-438):
the token is resolved exactly once (line 307, before the loop), the request
id and headers are computed once (lines 309, 318-331), and then the attempt
loop runs with those fixed headers. -/
def HttpClient.request (m : RequestModel) : RequestResult :=
  let token := m.tokens 0
  let requestId := jsOrStr m.requestIdOpt m.generatedRequestId
  let apiKey := resolveApiKey m.perRequestApiKey m.cfgCompanyApiKey m.cfgApiKey
  let headers := composeHeaders token requestId m.callerHeaders apiKey
  { tokenResolutions := 1
    trace := requestLoop m.maxRetries m.outcomes headers requestId 0 (m.maxRetries + 1) }

/-! ## Token manager -/

/-- The mutable token state of `HttpClient` (src/unnamed/part_002
lines 127-129): `accessToken`, `tokenExpiry` (milliseconds since epoch) and
whether `tokenRefreshPromise` is non-null. -/
structure TokenState where
  accessToken : Option String
  tokenExpiry : Int
  pendingRefresh : Bool
deriving Repr, DecidableEq

/-- What the synchronous prefix of `getAccessToken` decides to do. -/
inductive TokenStep where
  | awaitPending
  | returnCached (tok : String)
  | startRefresh
deriving Repr, DecidableEq

/-- Embedding of the synchronous prefix of `HttpClient.getAccessToken`
(src/unnamed/part_002 lines 203-217): join a pending refresh if one exists;
otherwise return the cached token when it is truthy and expires more than
five minutes from now; otherwise start a refresh. -/
def getAccessTokenStep (st : TokenState) (now : Int) : TokenStep :=
  if st.pendingRefresh then .awaitPending
  else
    match st.accessToken with
    | some tok =>
      if tok ≠ "" ∧ now < st.tokenExpiry - 5 * 60 * 1000 then .returnCached tok
      else .startRefresh
    | none => .startRefresh

/-- Result of one token refresh: the token value and its expiry, or an
authentication error. -/
inductive RefreshOutcome where
  | ok (tok : String) (expiry : Int)
  | err (e : OwayError)
deriving Repr, DecidableEq

/-- Shape of a token-endpoint exchange as observed by `refreshToken`:
whether `response.ok` held, the response status, and the two body fields. -/
structure TokenEndpointResult where
  ok : Bool
  status : Nat
  accessToken : Option String
  expiresIn : Option Int
deriving Repr, DecidableEq

/-- The error thrown for a non-ok token-endpoint response
(src/unnamed/part_002 lines 249-253). -/
def authFailedError (status : Nat) : OwayError :=
  { message := "Failed to obtain access token"
    code := some "AUTH_FAILED"
    statusCode := some status
    requestId := none }

/-- The error thrown for a token response missing its fields
(src/unnamed/part_002 lines 259-262). -/
def authInvalidError : OwayError :=
  { message := "Invalid token response: missing accessToken or expiresIn"
    code := some "AUTH_INVALID_RESPONSE"
    statusCode := none
    requestId := none }

/-- Embedding of `HttpClient.refreshToken` (src/unnamed/part_002
lines 233-279) as a function of the endpoint response: a non-ok response
yields an `AUTH_FAILED` error carrying the status; a falsy `accessToken` or
`expiresIn` yields an `AUTH_INVALID_RESPONSE` error; otherwise the expiry is
set to `now + expiresIn * 1000` and the token value is returned. -/
def refreshToken (now : Int) (resp : TokenEndpointResult) : RefreshOutcome :=
  if resp.ok = false then .err (authFailedError resp.status)
  else
    match jsTruthyStr resp.accessToken, jsTruthyInt resp.expiresIn with
    | some tok, some exp => .ok tok (now + exp * 1000)
    | _, _ => .err authInvalidError

/-- Embedding of the refresh path of `getAccessToken` (src/unnamed/part_002
lines 217-227): on success the awaited value is stored and the expiry was
already written by `refreshToken`; on failure nothing is stored; in both
cases the `finally` clause clears `tokenRefreshPromise`. -/
def completeRefresh (st : TokenState) (now : Int) (resp : TokenEndpointResult) :
    TokenState × RefreshOutcome :=
  match refreshToken now resp with
  | .ok tok expiry =>
    ({ accessToken := some tok, tokenExpiry := expiry, pendingRefresh := false },
     .ok tok expiry)
  | .err e => ({ st with pendingRefresh := false }, .err e)

/-! ## Logging sanitizer

`sanitizeForLogging` (src/unnamed/part_002 lines 179-197) walks a JSON-like
value.  JSON values are embedded as a mutual inductive family so that the
recursion is structural. -/

mutual

inductive JValue where
  | str (s : String)
  | num (n : Int)
  | bool (b : Bool)
  | null
  | arr (elems : JList)
  | obj (fields : JFields)

inductive JList where
  | nil
  | cons (v : JValue) (rest : JList)

inductive JFields where
  | nil
  | cons (k : String) (v : JValue) (rest : JFields)

end

/-- List-of-chars version of JS `String.startsWith`. -/
def listStartsWith : List Char → List Char → Bool
  | _, [] => true
  | [], _ :: _ => false
  | c :: hay, d :: nd => (c = d) && listStartsWith hay nd

/-- List-of-chars version of JS `String.includes`. -/
def listOccurs : List Char → List Char → Bool
  | [], nd => nd.isEmpty
  | c :: hay, nd => listStartsWith (c :: hay) nd || listOccurs hay nd

/-- JS `hay.includes(needle)` on strings. -/
def strIncludes (hay needle : String) : Bool :=
  listOccurs hay.toList needle.toList

/-- ASCII lowercasing of one character, as JS `toLowerCase` acts on the
ASCII range relevant to the sanitizer's keys. -/
def charToLower (c : Char) : Char :=
  if 65 ≤ c.toNat ∧ c.toNat ≤ 90 then Char.ofNat (c.toNat + 32) else c

/-- JS `key.toLowerCase()` on ASCII strings. -/
def strToLower (key : String) : String :=
  String.mk (key.toList.map charToLower)

/-- The `sensitive` needle list of `sanitizeForLogging`, verbatim from
src/unnamed/part_002 line 182 (note the capital K in the first entry). -/
def sensitiveNeedles : List String :=
  ["apiKey", "token", "authorization", "password", "secret"]

/-- Embedding of `sensitive.some(s => lowerKey.includes(s))` applied to a
key, where `lowerKey = key.toLowerCase()` (src/unnamed/part_002
lines 186-187). -/
def isSensitiveKey (key : String) : Bool :=
  sensitiveNeedles.any (fun s => strIncludes (strToLower key) s)

/-- JS `value && typeof value === 'object'`: objects and arrays qualify,
`null` is falsy, everything else is not an object. -/
def isJsObjectLike : JValue → Bool
  | .obj _ => true
  | .arr _ => true
  | _ => false

mutual

/-- Embedding of `HttpClient.sanitizeForLogging` (src/unnamed/part_002
lines 179-197): non-objects are returned unchanged; for objects and arrays
each entry whose key matches a sensitive needle is replaced by the redaction
marker, object-like values are recursed into, and everything else is kept
verbatim. -/
def sanitizeForLogging : JValue → JValue
  | .obj fields => .obj (sanitizeFields fields)
  | .arr elems => .arr (sanitizeElems 0 elems)
  | v => v

/-- Entry-wise sanitization of an object's fields. -/
def sanitizeFields : JFields → JFields
  | .nil => .nil
  | .cons k v rest =>
    .cons k
      (if isSensitiveKey k then .str "[REDACTED]"
       else if isJsObjectLike v then sanitizeForLogging v
       else v)
      (sanitizeFields rest)

/-- Entry-wise sanitization of an array; `Object.entries` presents the
indices "0", "1", ... as the keys. -/
def sanitizeElems : Nat → JList → JList
  | _, .nil => .nil
  | idx, .cons v rest =>
    .cons
      (if isSensitiveKey (toString idx) then .str "[REDACTED]"
       else if isJsObjectLike v then sanitizeForLogging v
       else v)
      (sanitizeElems (idx + 1) rest)

end

/-! ## Single-flight token refresh machine

JavaScript executes each async function run-to-completion between `await`
points, so the synchronous prefix of `getAccessToken` (the pending check,
the cache check, and the assignment of `tokenRefreshPromise` together with
issuing the token-endpoint fetch inside `refreshToken`) is one atomic step.
The machine below interleaves any number of logical callers against one
client instance; `fetchCount` counts requests issued to the token endpoint
and `nextCycle` numbers the refresh cycles that have been started. -/

/-- Progress of one logical caller of `getAccessToken`. -/
inductive CallerStatus where
  | notStarted
  | joined (cycle : Nat)
  | gotToken (tok : String)
  | gotError
deriving Repr, DecidableEq

/-- Global state of one client instance plus the logical callers. -/
structure SFState where
  accessToken : Option String
  tokenExpiry : Int
  pendingCycle : Option Nat
  fetchCount : Nat
  nextCycle : Nat
  callers : Nat → CallerStatus

/-- The token fields of the machine state, as seen by `getAccessTokenStep`;
`tokenRefreshPromise` is non-null exactly when a cycle is pending. -/
def SFState.tokenState (s : SFState) : TokenState :=
  { accessToken := s.accessToken, tokenExpiry := s.tokenExpiry,
    pendingRefresh := s.pendingCycle.isSome }

/-- Events of the machine: caller `i` runs the synchronous prefix of
`getAccessToken` at time `now`, or the in-flight refresh settles. -/
inductive SFEvent where
  | start (i : Nat) (now : Int)
  | settle (v : String) (expiry : Int)
  | settleErr

/-- One atomic step of the machine.  A `start` follows the decision of
`getAccessTokenStep`: joining a pending refresh awaits the shared promise;
a cache hit resolves immediately; starting a refresh sets the shared promise
and issues the fetch synchronously (src/unnamed/part_002 lines 203-218).  A
`settle` resolves the shared promise: every caller awaiting that cycle
receives the same value, the token and expiry are stored, and the `finally`
clause clears the promise (lines 219-227); `settleErr` is the failing
variant, which stores nothing. -/
def stepSF (s : SFState) : SFEvent → SFState
  | .start i now =>
    match getAccessTokenStep s.tokenState now with
    | .awaitPending =>
      { s with callers := fun j =>
          if j = i then .joined (s.pendingCycle.getD 0) else s.callers j }
    | .returnCached tok =>
      { s with callers := fun j => if j = i then .gotToken tok else s.callers j }
    | .startRefresh =>
      { s with pendingCycle := some s.nextCycle,
               fetchCount := s.fetchCount + 1,
               nextCycle := s.nextCycle + 1,
               callers := fun j =>
                 if j = i then .joined s.nextCycle else s.callers j }
  | .settle v expiry =>
    match s.pendingCycle with
    | some c =>
      { s with accessToken := some v, tokenExpiry := expiry, pendingCycle := none,
               callers := fun j =>
                 match s.callers j with
                 | .joined c2 => if c2 = c then .gotToken v else .joined c2
                 | st => st }
    | none => s
  | .settleErr =>
    match s.pendingCycle with
    | some c =>
      { s with pendingCycle := none,
               callers := fun j =>
                 match s.callers j with
                 | .joined c2 => if c2 = c then .gotError else .joined c2
                 | st => st }
    | none => s

/-- Initial state of a freshly constructed client: no cached token, no
pending refresh, no fetches issued, no caller has run. -/
def initSF : SFState :=
  { accessToken := none, tokenExpiry := 0, pendingCycle := none,
    fetchCount := 0, nextCycle := 0, callers := fun _ => .notStarted }

/-- Run a list of events from a state. -/
def runSF (s : SFState) (evs : List SFEvent) : SFState :=
  evs.foldl stepSF s

/-- Intermediate state after the callers in `started` have all run their
synchronous prefix from `initSF` and nothing has settled yet. -/
def midSF (started : List Nat) : SFState :=
  { accessToken := none, tokenExpiry := 0,
    pendingCycle := if started = [] then none else some 0,
    fetchCount := if started = [] then 0 else 1,
    nextCycle := if started = [] then 0 else 1,
    callers := fun j => if j ∈ started then .joined 0 else .notStarted }

/-- Invariant characterizing the machine state after the callers in
`started` have each run the synchronous prefix of `getAccessToken` from the
initial state, before anything settles: no token is cached, at most cycle 0
has started, exactly one fetch has been issued once anyone started, and
exactly the started callers have joined cycle 0. -/
def midInv (started : List Nat) (s : SFState) : Prop :=
  s.accessToken = none ∧ s.tokenExpiry = 0 ∧
  s.pendingCycle = (if started = [] then none else some 0) ∧
  s.fetchCount = (if started = [] then 0 else 1) ∧
  s.nextCycle = (if started = [] then 0 else 1) ∧
  ∀ j, s.callers j = (if j ∈ started then CallerStatus.joined 0 else .notStarted)

/-! ## Concrete scenarios used by the claims -/

/-- Scenario of claim C2: `maxRetries = 3`, three consecutive 500 responses
followed by a 200. -/
def scenarioC2 : RequestModel :=
  { maxRetries := 3
    tokens := fun _ => "tok"
    outcomes := fun a => if a < 3 then .response 500 none none none
                         else .response 200 none none none
    requestIdOpt := none
    generatedRequestId := "rid"
    callerHeaders := []
    perRequestApiKey := none
    cfgCompanyApiKey := none
    cfgApiKey := none }

/-- Scenario of claim C6: the environment would hand out a different token on
each resolution, the first attempt fails with a 500, the second succeeds. -/
def scenarioC6 : RequestModel :=
  { maxRetries := 1
    tokens := fun i => "T" ++ toString i
    outcomes := fun a => if a = 0 then .response 500 none none none
                         else .response 200 none none none
    requestIdOpt := none
    generatedRequestId := "rid"
    callerHeaders := []
    perRequestApiKey := none
    cfgCompanyApiKey := none
    cfgApiKey := none }

/-- Scenario of claim C9: every attempt returns a 400. -/
def scenarioC9 : RequestModel :=
  { maxRetries := 3
    tokens := fun _ => "tok"
    outcomes := fun _ => .response 400 none none none
    requestIdOpt := none
    generatedRequestId := "rid"
    callerHeaders := []
    perRequestApiKey := none
    cfgCompanyApiKey := none
    cfgApiKey := none }

end Oway

namespace Oway

/-! ## Attempt-loop trace lemmas -/

/-- A `delayRetry` decision implies the attempt was not the final one and the
delay is the exponential backoff for that attempt. -/
theorem catchAction_delay (maxRetries attempt : Nat) (t : Thrown) (d : Nat)
    (h : catchAction maxRetries attempt t = .delayRetry d) :
    attempt ≠ maxRetries ∧ d = 2 ^ attempt * 1000 := by
  cases t with
  | oway e =>
    by_cases h1 : e.isRetryable = false
    · simp [catchAction, h1] at h
    · by_cases h2 : attempt = maxRetries
      · simp [catchAction, h1, h2] at h
      · simp [catchAction, h1, h2] at h
        exact ⟨h2, h.symm⟩
  | raw m =>
    by_cases h2 : attempt = maxRetries
    · simp [catchAction, h2] at h
    · simp [catchAction, h2] at h
      exact ⟨h2, h.symm⟩

/-- Unfolding of the exponential-backoff delay list by one retry. -/
theorem range_pow_shift (a k : Nat) :
    (List.range (k + 1)).map (fun j => 2 ^ (a + j) * 1000) =
      2 ^ a * 1000 :: (List.range k).map (fun j => 2 ^ (a + 1 + j) * 1000) := by
  rw [List.range_succ_eq_map, List.map_cons, List.map_map]
  simp only [Nat.add_zero, Function.comp_def]
  refine congrArg _ ?_
  apply List.map_congr_left
  intro j hj
  have h : a + (j + 1) = a + 1 + j := by omega
  simp [Nat.succ_eq_add_one, h]

/-- Trace shape of the attempt loop: started at `attempt` with the fuel the
executor actually supplies, the loop makes between 1 and `fuel` attempts,
sends the same headers on every attempt, and the recorded delays are exactly
the exponential backoffs `2 ^ a * 1000` of the non-final attempts. -/
theorem requestLoop_trace (maxRetries : Nat) (outcomes : Nat → Outcome)
    (headers : List (String × String)) (requestId : String) :
    ∀ fuel attempt, 1 ≤ fuel → attempt + fuel = maxRetries + 1 →
      1 ≤ (requestLoop maxRetries outcomes headers requestId attempt fuel).attemptsMade ∧
      (requestLoop maxRetries outcomes headers requestId attempt fuel).attemptsMade ≤ fuel ∧
      (requestLoop maxRetries outcomes headers requestId attempt fuel).headersPerAttempt =
        List.replicate
          (requestLoop maxRetries outcomes headers requestId attempt fuel).attemptsMade
          headers ∧
      (requestLoop maxRetries outcomes headers requestId attempt fuel).delaysMs =
        (List.range
          ((requestLoop maxRetries outcomes headers requestId attempt fuel).attemptsMade - 1)).map
          (fun j => 2 ^ (attempt + j) * 1000) := by
  intro fuel
  induction fuel with
  | zero => intro attempt h1 h2; omega
  | succ f ih =>
    intro attempt h1 h2
    simp only [requestLoop]
    cases hA : runAttempt (outcomes attempt) requestId with
    | ok status => simp [hA]
    | thrown t =>
      cases hC : catchAction maxRetries attempt t with
      | raiseNow => simp [hA, hC]
      | breakLoop => simp [hA, hC]
      | delayRetry d =>
        obtain ⟨hne, hd⟩ := catchAction_delay maxRetries attempt t d hC
        have hf : 1 ≤ f := by omega
        have hsum : (attempt + 1) + f = maxRetries + 1 := by omega
        obtain ⟨ihl, ihu, ihh, ihd⟩ := ih (attempt + 1) hf hsum
        set r := requestLoop maxRetries outcomes headers requestId (attempt + 1) f with hr
        simp only [hA, hC]
        refine ⟨by omega, by omega, ?_, ?_⟩
        · rw [ihh, List.replicate_succ]
        · obtain ⟨k, hk⟩ : ∃ k, r.attemptsMade = k + 1 := ⟨r.attemptsMade - 1, by omega⟩
          rw [ihd, hd, hk]
          simp only [Nat.add_sub_cancel]
          rw [range_pow_shift]

/-- One-step evaluation of the loop when the first considered attempt throws
an error that the catch clause rethrows immediately. -/
theorem requestLoop_raise (maxRetries attempt fuel : Nat) (outcomes : Nat → Outcome)
    (headers : List (String × String)) (requestId : String) (t : Thrown)
    (hA : runAttempt (outcomes attempt) requestId = .thrown t)
    (hC : catchAction maxRetries attempt t = .raiseNow) :
    requestLoop maxRetries outcomes headers requestId attempt (fuel + 1) =
      { attemptsMade := 1, headersPerAttempt := [headers], delaysMs := [],
        result := .err t } := by
  simp only [requestLoop, hA, hC]

/-! ## Claim C3: the error classifier truth table -/

/-- C3: the error classifier is a pure mapping from HTTP status code to retry
eligibility: every status in {429, 500, 502, 503, 504} and every status ≥ 500
other than 501 is retryable; 501 and every 4xx status other than 429 are not.
Both the TypeScript `OwayError.isRetryable` and the Go `Error.IsRetryable`
realize this table. -/
theorem C3_retry_classification (sc : Nat) :
    ((sc = 429 ∨ (500 ≤ sc ∧ sc ≠ 501)) →
      (OwayError.mk "" none (some sc) none).isRetryable = true ∧
      (GoSdk.Error.mk "" "" sc "").IsRetryable = true) ∧
    ((sc = 501 ∨ (400 ≤ sc ∧ sc < 500 ∧ sc ≠ 429)) →
      (OwayError.mk "" none (some sc) none).isRetryable = false ∧
      (GoSdk.Error.mk "" "" sc "").IsRetryable = false) := by
  constructor
  · intro h
    constructor
    · simp only [OwayError.isRetryable]
      split_ifs <;> first | rfl | omega
    · simp only [GoSdk.Error.IsRetryable]
      split_ifs <;> first | rfl | omega
  · intro h
    constructor
    · simp only [OwayError.isRetryable]
      split_ifs <;> first | rfl | omega
    · simp only [GoSdk.Error.IsRetryable]
      split_ifs <;> first | rfl | omega

/-- Witness for C3 at the concrete statuses 502 (retryable) and 400 (not). -/
theorem C3_retry_classification_witness :
    ((OwayError.mk "" none (some 502) none).isRetryable = true ∧
      (GoSdk.Error.mk "" "" 502 "").IsRetryable = true) ∧
    ((OwayError.mk "" none (some 400) none).isRetryable = false ∧
      (GoSdk.Error.mk "" "" 400 "").IsRetryable = false) :=
  ⟨(C3_retry_classification 502).1 (by decide),
   (C3_retry_classification 400).2 (by decide)⟩

/-! ## Claim C10: errors without a status code are never retried -/

/-- C10: an error record with no status attached (absent `statusCode` in the
TypeScript record, zero in the Go record) classifies as non-retryable, so the
executor's catch clause rethrows such a typed error immediately; a raw
(non-`OwayError`) exception never takes that immediate-raise path. -/
theorem C10_no_status_immediate (e : OwayError) (g : GoSdk.Error)
    (he : e.statusCode = none) (hg : g.StatusCode = 0)
    (maxRetries attempt : Nat) (msg : String) :
    e.isRetryable = false ∧
    g.IsRetryable = false ∧
    catchAction maxRetries attempt (.oway e) = .raiseNow ∧
    catchAction maxRetries attempt (.raw msg) ≠ .raiseNow := by
  have h1 : e.isRetryable = false := by
    simp [OwayError.isRetryable, he]
  have h2 : g.IsRetryable = false := by
    simp [GoSdk.Error.IsRetryable, hg]
  refine ⟨h1, h2, ?_, ?_⟩
  · simp [catchAction, h1]
  · simp only [catchAction]
    split_ifs <;> simp

/-- Witness for C10 at a concrete status-less error. -/
theorem C10_no_status_immediate_witness :
    (OwayError.mk "boom" none none none).isRetryable = false ∧
    (GoSdk.Error.mk "boom" "" 0 "").IsRetryable = false ∧
    catchAction 3 0 (.oway (OwayError.mk "boom" none none none)) = .raiseNow ∧
    catchAction 3 0 (.raw "io") ≠ .raiseNow :=
  C10_no_status_immediate (OwayError.mk "boom" none none none)
    (GoSdk.Error.mk "boom" "" 0 "") rfl rfl 3 0 "io"

/-! ## Claim C8: cache validity window -/

/-- C8: when no refresh is pending and a cached truthy token expires more
than five minutes after the current time, `getAccessToken` returns it
immediately (the `returnCached` step, which performs no network call); and
conversely the cached token is only ever returned under exactly those
conditions — otherwise the call awaits or starts a refresh. -/
theorem C8_cache_validity (st : TokenState) (now : Int) :
    (st.pendingRefresh = false →
      ∀ tok, st.accessToken = some tok → tok ≠ "" →
        5 * 60 * 1000 < st.tokenExpiry - now →
        getAccessTokenStep st now = .returnCached tok) ∧
    (∀ tok, getAccessTokenStep st now = .returnCached tok →
      st.pendingRefresh = false ∧ st.accessToken = some tok ∧ tok ≠ "" ∧
        5 * 60 * 1000 < st.tokenExpiry - now) := by
  constructor
  · intro hp tok ha hne hlt
    rw [getAccessTokenStep, if_neg (by simp [hp]), ha]
    show (if tok ≠ "" ∧ now < st.tokenExpiry - 5 * 60 * 1000 then
        TokenStep.returnCached tok else TokenStep.startRefresh) = .returnCached tok
    rw [if_pos ⟨hne, by omega⟩]
  · intro tok h
    rw [getAccessTokenStep] at h
    by_cases hp : st.pendingRefresh = true
    · rw [if_pos hp] at h
      exact absurd h (by simp)
    · rw [if_neg hp] at h
      cases ha : st.accessToken with
      | none => rw [ha] at h; exact absurd h (by simp)
      | some t =>
        rw [ha] at h
        have h2 : (if t ≠ "" ∧ now < st.tokenExpiry - 5 * 60 * 1000 then
            TokenStep.returnCached t else TokenStep.startRefresh) = .returnCached tok := h
        by_cases hc : t ≠ "" ∧ now < st.tokenExpiry - 5 * 60 * 1000
        · rw [if_pos hc] at h2
          injection h2 with h3
          subst h3
          exact ⟨by simpa using hp, rfl, hc.1, by omega⟩
        · rw [if_neg hc] at h2
          exact absurd h2 (by simp)

/-- Witness for C8: a valid cached token ten minutes from expiry is returned. -/
theorem C8_cache_validity_witness :
    getAccessTokenStep ⟨some "tok", 600000, false⟩ 0 = .returnCached "tok" :=
  (C8_cache_validity ⟨some "tok", 600000, false⟩ 0).1 rfl "tok" rfl
    (by decide) (by norm_num)

/-! ## Claim C4: token refresh failure -/

/-- C4: when the token endpoint returns a non-ok response or a body with a
falsy `accessToken` or `expiresIn`, the refresh fails with an authentication
error (`AUTH_FAILED` or `AUTH_INVALID_RESPONSE`), the cached token and
expiry are left untouched, and the pending marker is cleared; a subsequent
call with the cache still empty starts a new refresh. -/
theorem C4_refresh_failure (st : TokenState) (now : Int) (resp : TokenEndpointResult)
    (hfail : resp.ok = false ∨ jsTruthyStr resp.accessToken = none ∨
      jsTruthyInt resp.expiresIn = none) :
    (∃ e : OwayError,
      completeRefresh st now resp = ({ st with pendingRefresh := false }, .err e) ∧
      (e.code = some "AUTH_FAILED" ∨ e.code = some "AUTH_INVALID_RESPONSE")) ∧
    (∀ now2, st.accessToken = none →
      getAccessTokenStep { st with pendingRefresh := false } now2 = .startRefresh) := by
  constructor
  · by_cases hok : resp.ok = false
    · refine ⟨authFailedError resp.status, ?_, Or.inl rfl⟩
      simp [completeRefresh, refreshToken, hok]
    · have hok2 : resp.ok = true := by
        cases h : resp.ok
        · exact absurd h hok
        · rfl
      have hinv :
          completeRefresh st now resp =
            ({ st with pendingRefresh := false }, .err authInvalidError) := by
        cases h1 : jsTruthyStr resp.accessToken with
        | none =>
          cases h2 : jsTruthyInt resp.expiresIn <;>
            simp [completeRefresh, refreshToken, hok2, h1, h2]
        | some tok =>
          cases h2 : jsTruthyInt resp.expiresIn with
          | none => simp [completeRefresh, refreshToken, hok2, h1, h2]
          | some exp =>
            rcases hfail with h | h | h
            · exact absurd h hok
            · exact absurd h1 (by rw [h]; simp)
            · exact absurd h2 (by rw [h]; simp)
      exact ⟨authInvalidError, hinv, Or.inr rfl⟩
  · intro now2 hnone
    rw [getAccessTokenStep, if_neg (by simp)]
    simp only [hnone]

/-- Witness for C4: a 500 from the token endpoint fails the refresh, leaves
the empty cache empty, and clears the pending marker. -/
theorem C4_refresh_failure_witness :
    (∃ e : OwayError,
      completeRefresh ⟨none, 0, true⟩ 0 ⟨false, 500, none, none⟩ =
        (⟨none, 0, false⟩, .err e) ∧
      (e.code = some "AUTH_FAILED" ∨ e.code = some "AUTH_INVALID_RESPONSE")) ∧
    (∀ now2, (⟨none, 0, true⟩ : TokenState).accessToken = none →
      getAccessTokenStep ⟨none, 0, false⟩ now2 = .startRefresh) :=
  C4_refresh_failure ⟨none, 0, true⟩ 0 ⟨false, 500, none, none⟩ (Or.inl rfl)

end Oway

namespace Oway

/-! ## Claim C2: attempt bound and backoff schedule -/

/-- C2: the executor makes at most `maxRetries + 1` attempts on any input;
and in the concrete scenario of three consecutive 500 responses followed by
a 200 with `maxRetries = 3`, it succeeds after exactly 4 attempts with
backoff delays of 1, 2 and 4 seconds (2^attempt seconds from attempt 0)
between attempts. -/
theorem C2_retry_bound_and_backoff :
    (∀ m : RequestModel, (HttpClient.request m).trace.attemptsMade ≤ m.maxRetries + 1) ∧
    (HttpClient.request scenarioC2).trace.attemptsMade = 4 ∧
    (HttpClient.request scenarioC2).trace.delaysMs = [1000, 2000, 4000] ∧
    (HttpClient.request scenarioC2).trace.result = .ok 200 := by
  refine ⟨?_, by decide, by decide, by decide⟩
  intro m
  exact (requestLoop_trace m.maxRetries m.outcomes
    (composeHeaders (m.tokens 0) (jsOrStr m.requestIdOpt m.generatedRequestId)
      m.callerHeaders (resolveApiKey m.perRequestApiKey m.cfgCompanyApiKey m.cfgApiKey))
    (jsOrStr m.requestIdOpt m.generatedRequestId)
    (m.maxRetries + 1) 0 (by omega) (by omega)).2.1

/-! ## Claim C6: what a retry reuses -/

/-- C6 counterexample: with an environment whose successive token
resolutions would yield "T0", "T1", ... and a 500 on the first attempt, the
retry sends `Authorization: Bearer T0` again — not `Bearer T1`, which
re-resolving the token for the new attempt would have produced — and the
token accessor is invoked exactly once, not once per attempt. -/
theorem C6_counterexample :
    (HttpClient.request scenarioC6).trace.attemptsMade = 2 ∧
    (HttpClient.request scenarioC6).tokenResolutions = 1 ∧
    (HttpClient.request scenarioC6).trace.headersPerAttempt.map
      (fun h => getHeader h "Authorization") = [some "Bearer T0", some "Bearer T0"] ∧
    some ("Bearer " ++ scenarioC6.tokens 1) ≠ some "Bearer T0" :=
  ⟨by decide, by decide, by decide, by decide⟩

/-- C6 (amended): on every retryable failure with attempts remaining the
executor sleeps `2 ^ attempt` seconds and retries the HTTP exchange, but it
reuses the headers composed before the first attempt: the bearer token and
the effective tenant key are resolved once per `request` call, not once per
attempt. -/
theorem C6_backoff_and_fixed_headers (m : RequestModel) :
    (HttpClient.request m).tokenResolutions = 1 ∧
    (HttpClient.request m).trace.headersPerAttempt =
      List.replicate (HttpClient.request m).trace.attemptsMade
        (composeHeaders (m.tokens 0) (jsOrStr m.requestIdOpt m.generatedRequestId)
          m.callerHeaders
          (resolveApiKey m.perRequestApiKey m.cfgCompanyApiKey m.cfgApiKey)) ∧
    (HttpClient.request m).trace.delaysMs =
      (List.range ((HttpClient.request m).trace.attemptsMade - 1)).map
        (fun a => 2 ^ a * 1000) := by
  have h := requestLoop_trace m.maxRetries m.outcomes
    (composeHeaders (m.tokens 0) (jsOrStr m.requestIdOpt m.generatedRequestId)
      m.callerHeaders (resolveApiKey m.perRequestApiKey m.cfgCompanyApiKey m.cfgApiKey))
    (jsOrStr m.requestIdOpt m.generatedRequestId)
    (m.maxRetries + 1) 0 (by omega) (by omega)
  refine ⟨rfl, h.2.2.1, ?_⟩
  have hd := h.2.2.2
  simpa using hd

/-! ## Claim C9: a 400 fails immediately -/

/-- C9: a request whose first attempt receives a 400 response makes exactly
one attempt, inserts no backoff delay, and raises a non-retryable error
record carrying status 400. -/
theorem C9_client_error_immediate (m : RequestModel) (em ec sr : Option String)
    (h0 : m.outcomes 0 = .response 400 em ec sr) :
    (HttpClient.request m).trace.attemptsMade = 1 ∧
    (HttpClient.request m).trace.delaysMs = [] ∧
    ∃ e : OwayError, (HttpClient.request m).trace.result = .err (.oway e) ∧
      e.statusCode = some 400 ∧ e.isRetryable = false := by
  have hret : ∀ rid, (responseError 400 em ec sr rid).isRetryable = false := by
    intro rid
    simp [responseError, OwayError.isRetryable]
  have hA : ∀ rid, runAttempt (m.outcomes 0) rid =
      .thrown (.oway (responseError 400 em ec sr rid)) := by
    intro rid
    rw [h0]
    simp [runAttempt]
  have hC : ∀ rid, catchAction m.maxRetries 0 (.oway (responseError 400 em ec sr rid)) =
      .raiseNow := by
    intro rid
    simp [catchAction, hret rid]
  have hloop := requestLoop_raise m.maxRetries 0 m.maxRetries m.outcomes
    (composeHeaders (m.tokens 0) (jsOrStr m.requestIdOpt m.generatedRequestId)
      m.callerHeaders (resolveApiKey m.perRequestApiKey m.cfgCompanyApiKey m.cfgApiKey))
    (jsOrStr m.requestIdOpt m.generatedRequestId)
    (.oway (responseError 400 em ec sr (jsOrStr m.requestIdOpt m.generatedRequestId)))
    (hA (jsOrStr m.requestIdOpt m.generatedRequestId))
    (hC (jsOrStr m.requestIdOpt m.generatedRequestId))
  have htr : (HttpClient.request m).trace =
      { attemptsMade := 1,
        headersPerAttempt := [composeHeaders (m.tokens 0)
          (jsOrStr m.requestIdOpt m.generatedRequestId) m.callerHeaders
          (resolveApiKey m.perRequestApiKey m.cfgCompanyApiKey m.cfgApiKey)],
        delaysMs := [],
        result := .err (.oway (responseError 400 em ec sr
          (jsOrStr m.requestIdOpt m.generatedRequestId))) } := hloop
  refine ⟨by rw [htr], by rw [htr], ⟨responseError 400 em ec sr
    (jsOrStr m.requestIdOpt m.generatedRequestId), by rw [htr], rfl,
    hret (jsOrStr m.requestIdOpt m.generatedRequestId)⟩⟩

/-- Witness for C9: the concrete all-400 scenario makes one attempt, no
delays, and fails with a non-retryable status-400 error. -/
theorem C9_client_error_immediate_witness :
    (HttpClient.request scenarioC9).trace.attemptsMade = 1 ∧
    (HttpClient.request scenarioC9).trace.delaysMs = [] ∧
    ∃ e : OwayError, (HttpClient.request scenarioC9).trace.result = .err (.oway e) ∧
      e.statusCode = some 400 ∧ e.isRetryable = false :=
  C9_client_error_immediate scenarioC9 none none none rfl

end Oway

namespace Oway

/-! ## Header-lookup lemmas -/

/-- Writing a key makes lookup of that key return the written value. -/
theorem getHeader_setHeader_self (hs : List (String × String)) (k v : String) :
    getHeader (setHeader hs k v) k = some v := by
  induction hs with
  | nil => simp [setHeader, getHeader]
  | cons kv rest ih =>
    obtain ⟨k0, v0⟩ := kv
    by_cases h : k0 = k
    · simp [setHeader, getHeader, h]
    · simp [setHeader, getHeader, h, ih]

/-- Writing a key leaves lookup of any other key unchanged. -/
theorem getHeader_setHeader_ne (hs : List (String × String)) (k v k2 : String)
    (h : k2 ≠ k) : getHeader (setHeader hs k v) k2 = getHeader hs k2 := by
  induction hs with
  | nil =>
    simp only [setHeader, getHeader]
    rw [if_neg (fun hh => h hh.symm)]
  | cons kv rest ih =>
    obtain ⟨k0, v0⟩ := kv
    by_cases h0 : k0 = k
    · subst h0
      simp [setHeader, getHeader, Ne.symm h]
    · simp [setHeader, getHeader, h0, ih]

/-- Spreading a list of bindings none of which mention a key leaves that
key's lookup unchanged. -/
theorem getHeader_mergeHeaders_not_mem (hs acc : List (String × String)) (k : String)
    (h : k ∉ hs.map Prod.fst) :
    getHeader (mergeHeaders acc hs) k = getHeader acc k := by
  induction hs generalizing acc with
  | nil => rfl
  | cons kv rest ih =>
    obtain ⟨k0, v0⟩ := kv
    simp only [List.map_cons, List.mem_cons] at h
    push_neg at h
    show getHeader (mergeHeaders (setHeader acc k0 v0) rest) k = getHeader acc k
    rw [ih (setHeader acc k0 v0) h.2, getHeader_setHeader_ne acc k0 v0 k h.1]

/-- Spreading a duplicate-free list of bindings makes lookup of a bound key
return its value. -/
theorem getHeader_mergeHeaders_mem (hs acc : List (String × String)) (k v : String)
    (hnd : (hs.map Prod.fst).Nodup) (hmem : (k, v) ∈ hs) :
    getHeader (mergeHeaders acc hs) k = some v := by
  induction hs generalizing acc with
  | nil => cases hmem
  | cons kv rest ih =>
    obtain ⟨k0, v0⟩ := kv
    simp only [List.map_cons, List.nodup_cons] at hnd
    show getHeader (mergeHeaders (setHeader acc k0 v0) rest) k = some v
    rcases List.mem_cons.mp hmem with h | h
    · injection h with hk hv
      subst hk
      subst hv
      rw [getHeader_mergeHeaders_not_mem rest (setHeader acc k v) k hnd.1,
        getHeader_setHeader_self]
    · exact ih (setHeader acc k0 v0) hnd.2 h

end Oway

namespace Oway

/-! ## Claim C7: header layering precedence -/

/-- C7 counterexample: with a caller-supplied `x-oway-api-key` override and a
resolved tenant key, the sent header carries the resolved tenant key — the
caller's override does not take precedence, because the source assigns
`headers['x-oway-api-key']` after spreading the caller headers. -/
theorem C7_counterexample :
    getHeader (composeHeaders "tok" "rid" [("x-oway-api-key", "caller-key")]
      (resolveApiKey (some "resolved-key") none none)) "x-oway-api-key" ≠
      some "caller-key" ∧
    getHeader (composeHeaders "tok" "rid" [("x-oway-api-key", "caller-key")]
      (resolveApiKey (some "resolved-key") none none)) "x-oway-api-key" =
      some "resolved-key" :=
  ⟨by decide, by decide⟩

/-- C7 (amended): headers are composed as content-type, bearer
authorization, request-id, then the caller-supplied overrides, and the
tenant-key header is assigned last — so a caller override takes precedence
over every header composed before it, while a resolved tenant key overrides
even a caller-supplied `x-oway-api-key`. -/
theorem C7_header_layering (tok rid : String) (callerHeaders : List (String × String))
    (perReq cfgCompany cfgDefault : Option String)
    (hnd : (callerHeaders.map Prod.fst).Nodup) :
    (∀ k2, resolveApiKey perReq cfgCompany cfgDefault = some k2 → k2 ≠ "" →
      getHeader (composeHeaders tok rid callerHeaders
        (resolveApiKey perReq cfgCompany cfgDefault)) "x-oway-api-key" = some k2) ∧
    (∀ k2 v, k2 ≠ "x-oway-api-key" → (k2, v) ∈ callerHeaders →
      getHeader (composeHeaders tok rid callerHeaders
        (resolveApiKey perReq cfgCompany cfgDefault)) k2 = some v) := by
  constructor
  · intro k2 hk hne
    rw [hk]
    show getHeader (if k2 = "" then
        mergeHeaders [("Content-Type", "application/json"),
          ("Authorization", "Bearer " ++ tok), ("x-request-id", rid)] callerHeaders
      else setHeader (mergeHeaders [("Content-Type", "application/json"),
          ("Authorization", "Bearer " ++ tok), ("x-request-id", rid)] callerHeaders)
        "x-oway-api-key" k2) "x-oway-api-key" = some k2
    rw [if_neg hne, getHeader_setHeader_self]
  · intro k2 v hne hmem
    cases hk : resolveApiKey perReq cfgCompany cfgDefault with
    | none =>
      exact getHeader_mergeHeaders_mem callerHeaders _ k2 v hnd hmem
    | some k3 =>
      show getHeader (if k3 = "" then
          mergeHeaders [("Content-Type", "application/json"),
            ("Authorization", "Bearer " ++ tok), ("x-request-id", rid)] callerHeaders
        else setHeader (mergeHeaders [("Content-Type", "application/json"),
            ("Authorization", "Bearer " ++ tok), ("x-request-id", rid)] callerHeaders)
          "x-oway-api-key" k3) k2 = some v
      by_cases h3 : k3 = ""
      · rw [if_pos h3]
        exact getHeader_mergeHeaders_mem callerHeaders _ k2 v hnd hmem
      · rw [if_neg h3, getHeader_setHeader_ne _ _ _ _ hne]
        exact getHeader_mergeHeaders_mem callerHeaders _ k2 v hnd hmem

/-- Witness for C7 (amended): a resolved tenant key lands in the header, and
a caller-supplied `Authorization` override beats the composed bearer one. -/
theorem C7_header_layering_witness :
    getHeader (composeHeaders "tok" "rid" [("Authorization", "custom"), ("X-Extra", "1")]
      (resolveApiKey (some "key1") none none)) "x-oway-api-key" = some "key1" ∧
    getHeader (composeHeaders "tok" "rid" [("Authorization", "custom"), ("X-Extra", "1")]
      (resolveApiKey (some "key1") none none)) "Authorization" = some "custom" :=
  ⟨(C7_header_layering "tok" "rid" [("Authorization", "custom"), ("X-Extra", "1")]
      (some "key1") none none (by decide)).1 "key1" (by decide) (by decide),
   (C7_header_layering "tok" "rid" [("Authorization", "custom"), ("X-Extra", "1")]
      (some "key1") none none (by decide)).2 "Authorization" "custom" (by decide)
      (by decide)⟩

end Oway

namespace Oway

/-! ## Claim C5: the logging sanitizer misses apiKey -/

/-- C5 (code evidence): on the spec's own example input the sanitizer leaves
the `apiKey` value in cleartext while redacting the nested `token`.  The
cause is visible in the last two conjuncts: the key is lowercased before
matching, but the needle list contains `"apiKey"` with a capital K, which no
lowercased key can contain. -/
theorem C5_sanitizer_misses_apiKey :
    sanitizeForLogging
      (.obj (.cons "apiKey" (.str "oway_sk_live_abcdef")
        (.cons "nested" (.obj (.cons "token" (.str "xyz") .nil)) .nil))) =
    .obj (.cons "apiKey" (.str "oway_sk_live_abcdef")
      (.cons "nested" (.obj (.cons "token" (.str "[REDACTED]") .nil)) .nil)) ∧
    isSensitiveKey "apiKey" = false ∧
    isSensitiveKey "token" = true ∧
    strIncludes (strToLower "apiKey") "apiKey" = false :=
  ⟨rfl, rfl, rfl, rfl⟩

/-! ## Claim C1: single-flight token refresh -/

/-- Starting one more caller preserves the pre-settle invariant. -/
theorem stepSF_start_inv (started : List Nat) (s : SFState) (i : Nat) (now : Int)
    (h : midInv started s) : midInv (started ++ [i]) (stepSF s (.start i now)) := by
  obtain ⟨h1, h2, h3, h4, h5, h6⟩ := h
  by_cases hs : started = []
  · subst hs
    rw [if_pos rfl] at h3 h4 h5
    have hstep : getAccessTokenStep s.tokenState now = .startRefresh := by
      rw [getAccessTokenStep, if_neg (by simp [SFState.tokenState, h3])]
      simp [SFState.tokenState, h1]
    simp only [stepSF, hstep]
    refine ⟨h1, h2, by simp [h3, h5], by simp [h4], by simp [h5], ?_⟩
    intro j
    by_cases hj : j = i
    · simp [hj, h5]
    · simp [hj, h6 j]
  · rw [if_neg hs] at h3 h4 h5
    have hstep : getAccessTokenStep s.tokenState now = .awaitPending := by
      rw [getAccessTokenStep, if_pos (by simp [SFState.tokenState, h3])]
    simp only [stepSF, hstep]
    have hne2 : started ++ [i] ≠ [] := by simp
    refine ⟨h1, h2, by simp [h3, hne2], by simp [h4, hne2], by simp [h5, hne2], ?_⟩
    intro j
    by_cases hj : j = i
    · simp [hj, h3]
    · simp [hj, h6 j]

/-- Running any sequence of caller starts from the initial state leaves the
machine in the pre-settle invariant state. -/
theorem runSF_starts_inv (starts : List (Nat × Int)) (started : List Nat) (s : SFState)
    (h : midInv started s) :
    midInv (started ++ starts.map Prod.fst)
      (runSF s (starts.map (fun p => SFEvent.start p.1 p.2))) := by
  induction starts generalizing started s with
  | nil => simpa using h
  | cons p rest ih =>
    obtain ⟨i, now⟩ := p
    simp only [List.map_cons, runSF, List.foldl_cons]
    have h2 := stepSF_start_inv started s i now h
    have h3 := ih (started ++ [i]) (stepSF s (.start i now)) h2
    simp only [runSF] at h3
    simpa [List.append_assoc] using h3

/-- Settling the pending refresh delivers the same token value to every
caller that had joined, without issuing any further fetch. -/
theorem settleSF_final (started : List Nat) (s : SFState) (v : String) (expiry : Int)
    (hne : started ≠ []) (h : midInv started s) :
    (stepSF s (.settle v expiry)).fetchCount = 1 ∧
    ∀ i ∈ started, (stepSF s (.settle v expiry)).callers i = .gotToken v := by
  obtain ⟨h1, h2, h3, h4, h5, h6⟩ := h
  rw [if_neg hne] at h3 h4 h5
  simp only [stepSF, h3]
  refine ⟨h4, ?_⟩
  intro i hi
  simp [h6 i, hi]

/-- Step-preservation of "one fetch per started cycle". -/
theorem stepSF_fetch_eq (s : SFState) (e : SFEvent)
    (h : s.fetchCount = s.nextCycle) :
    (stepSF s e).fetchCount = (stepSF s e).nextCycle := by
  cases e with
  | start i now =>
    simp only [stepSF]
    cases getAccessTokenStep s.tokenState now <;> simp [h]
  | settle v ex => cases hp : s.pendingCycle <;> simp [stepSF, hp, h]
  | settleErr => cases hp : s.pendingCycle <;> simp [stepSF, hp, h]

/-- Run-preservation of "one fetch per started cycle". -/
theorem runSF_fetch_eq (evs : List SFEvent) (s : SFState)
    (h : s.fetchCount = s.nextCycle) :
    (runSF s evs).fetchCount = (runSF s evs).nextCycle := by
  induction evs generalizing s with
  | nil => simpa using h
  | cons e rest ih =>
    simp only [runSF, List.foldl_cons]
    exact ih (stepSF s e) (stepSF_fetch_eq s e h)

/-- C1: for any nonempty set of concurrent `getAccessToken` callers arriving
in any order while no token is cached, followed by the refresh settling with
value `v`: exactly one request was issued to the token endpoint and every
caller resolves to the same value `v`.  Moreover, over any event sequence
whatsoever the fetch count equals the number of refresh cycles started
(exactly one request per refresh cycle), and a call arriving while a refresh
is pending only joins it — it never starts a second refresh. -/
theorem C1_single_flight (starts : List (Nat × Int)) (v : String) (expiry : Int)
    (hne : starts ≠ []) :
    (runSF initSF (starts.map (fun p => SFEvent.start p.1 p.2) ++
        [SFEvent.settle v expiry])).fetchCount = 1 ∧
    (∀ i, i ∈ starts.map Prod.fst →
      (runSF initSF (starts.map (fun p => SFEvent.start p.1 p.2) ++
        [SFEvent.settle v expiry])).callers i = .gotToken v) ∧
    (∀ evs, (runSF initSF evs).fetchCount = (runSF initSF evs).nextCycle) ∧
    (∀ s : SFState, ∀ i : Nat, ∀ now : Int, s.pendingCycle.isSome = true →
      stepSF s (.start i now) =
        { s with callers := fun j =>
            if j = i then .joined (s.pendingCycle.getD 0) else s.callers j }) := by
  have hinit : midInv [] initSF := by
    refine ⟨rfl, rfl, rfl, rfl, rfl, ?_⟩
    intro j
    simp [initSF]
  have hmid := runSF_starts_inv starts [] initSF hinit
  simp only [List.nil_append] at hmid
  have hmapne : starts.map Prod.fst ≠ [] := by
    intro hcon
    exact hne (List.map_eq_nil_iff.mp hcon)
  have hrun : runSF initSF (starts.map (fun p => SFEvent.start p.1 p.2) ++
      [SFEvent.settle v expiry]) =
      stepSF (runSF initSF (starts.map (fun p => SFEvent.start p.1 p.2)))
        (.settle v expiry) := by
    simp [runSF, List.foldl_append]
  obtain ⟨hf, hc⟩ := settleSF_final (starts.map Prod.fst)
    (runSF initSF (starts.map (fun p => SFEvent.start p.1 p.2))) v expiry hmapne hmid
  refine ⟨by rw [hrun]; exact hf, fun i hi => by rw [hrun]; exact hc i hi, ?_, ?_⟩
  · intro evs
    exact runSF_fetch_eq evs initSF rfl
  · intro s i now hp
    have hstep : getAccessTokenStep s.tokenState now = .awaitPending := by
      rw [getAccessTokenStep, if_pos (by simp [SFState.tokenState, hp])]
    simp only [stepSF, hstep]

/-- Witness for C1: two concurrent callers, one settle. -/
theorem C1_single_flight_witness :
    (runSF initSF ([((0 : Nat), (5 : Int)), (1, 7)].map
        (fun p => SFEvent.start p.1 p.2) ++ [SFEvent.settle "tok" 1000])).fetchCount = 1 ∧
    (runSF initSF ([((0 : Nat), (5 : Int)), (1, 7)].map
        (fun p => SFEvent.start p.1 p.2) ++
        [SFEvent.settle "tok" 1000])).callers 0 = .gotToken "tok" ∧
    (runSF initSF ([((0 : Nat), (5 : Int)), (1, 7)].map
        (fun p => SFEvent.start p.1 p.2) ++
        [SFEvent.settle "tok" 1000])).callers 1 = .gotToken "tok" :=
  ⟨(C1_single_flight [(0, 5), (1, 7)] "tok" 1000 (by simp)).1,
   (C1_single_flight [(0, 5), (1, 7)] "tok" 1000 (by simp)).2.1 0 (by simp),
   (C1_single_flight [(0, 5), (1, 7)] "tok" 1000 (by simp)).2.1 1 (by simp)⟩

end Oway
